import Mathlib

/-
Shallow embedding of the Syrja signaling server core (src/server(3).js):
the connection registry (`userSockets`), the presence subscription engine
(`presenceSubscriptions`, `socketSubscriptions`), the per-address rate
limiter (`isRateLimited`), and the relay handlers (register,
subscribe-to-presence, request-connection, join, signal, disconnect).

Modelling conventions:
- JavaScript objects used as string-keyed dictionaries become total
  functions `String → Option _` (`none` = key absent; the code deletes
  empty reverse-index entries, so absence is observable).
- `socket.id`, `socket.handshake.address` become the `Socket` structure;
  `socket.data.pubKey` becomes the `socketData` map of the server state.
- `io.to(sid).emit(...)` / `socket.emit(...)` / `socket.to(room).emit(...)`
  become values of the `Emission` inductive returned by each handler.
- `Date.now()` becomes an explicit `now : Nat` argument; JS `now - start`
  on timestamps with `now ≥ start` agrees with Nat subtraction, and for
  `now < start` both sides make the window test false.
- Identities are modelled as strings; the JS falsy check `!pubKey` on a
  string payload is `= ""` (absent/null payloads are represented by "").
- The `\s+` regex of `normKey` is modelled by `Char.isWhitespace`.
- The web-push dispatch (`webpush.sendNotification`) is external; its
  outcome is passed to `requestConnectionHandler` as an explicit
  `Except PushErr Unit` argument, and the handler also reports which
  persistent-store keys it consulted for the push bridge.
-/

/-- One live transport session: `socket.id` and `socket.handshake.address`. -/
structure Socket where
  id : String
  addr : String
deriving DecidableEq

/-- Rate-limit record per source address: `\x7b count, startTime \x7d`. -/
abbrev RLState := String → Option (Nat × Nat)

/-- The in-memory server state: the three indices (`userSockets`,
`presenceSubscriptions`, `socketSubscriptions`), the per-socket
`socket.data.pubKey` tags, socket.io room membership, the rate-limit map,
and the node-persist store used for push subscriptions. -/
structure ServerState where
  userSockets : String → Option String
  presenceSubscriptions : String → Option (List String)
  socketSubscriptions : String → Option (List String)
  socketData : String → Option String
  rooms : String → List String
  rateLimit : RLState
  pushStore : String → Option String

/-- Pointwise update of a string-keyed dictionary. -/
def fupd {α : Type} (f : String → α) (k : String) (v : α) : String → α :=
  fun x => if x = k then v else f x

/-- Fresh server state: all dictionaries empty. -/
def initialState : ServerState :=
  { userSockets := fun _ => none
    presenceSubscriptions := fun _ => none
    socketSubscriptions := fun _ => none
    socketData := fun _ => none
    rooms := fun _ => []
    rateLimit := fun _ => none
    pushStore := fun _ => none }

/-- `function normKey(k)\x7b return (typeof k === 'string') ? k.replace(/\s+/g,'') : k; \x7d`
restricted to string inputs: remove every whitespace character. -/
def normKey (k : String) : String :=
  String.mk (k.data.filter (fun c => !c.isWhitespace))

/-- `const LIMIT = 20`. -/
def LIMIT : Nat := 20

/-- `const TIME_FRAME = 60 * 1000`. -/
def TIME_FRAME : Nat := 60000

/-- `isRateLimited(socket)` as a pure function of the address, the current
time and the rate-limit map; returns the blocked flag and the new map. -/
def isRateLimited (ip : String) (now : Nat) (rl : RLState) : Bool × RLState :=
  match rl ip with
  | none => (false, fupd rl ip (some (1, now)))
  | some (count, startTime) =>
    if now - startTime > TIME_FRAME then
      (false, fupd rl ip (some (1, now)))
    else if count ≥ LIMIT then
      (true, rl)
    else
      (false, fupd rl ip (some (count + 1, startTime)))

/-- Messages the server emits to clients, tagged with the target socket id. -/
inductive Emission where
  | presenceUpdate (target : String) (pubKey : String) (status : String)
  | presenceInitialStatus (target : String) (contacts : List String)
  | incomingRequest (target : String) (fromKey : String)
  | signalEv (target : String) (room : String) (payload : String)
deriving DecidableEq

/-- The `register` handler: rate gate, falsy-identity guard, store the
normalized key in `userSockets` and on `socket.data`, then fan out an
online `presence-update` to the key's current subscribers. -/
def registerHandler (sock : Socket) (now : Nat) (pubKey : String) (st : ServerState) :
    ServerState × List Emission :=
  let r := isRateLimited sock.addr now st.rateLimit
  let st1 := { st with rateLimit := r.2 }
  if r.1 then (st1, [])
  else if pubKey = "" then (st1, [])
  else
    let key := normKey pubKey
    let st2 := { st1 with
      userSockets := fupd st1.userSockets key (some sock.id),
      socketData := fupd st1.socketData sock.id (some key) }
    let subscribers := (st2.presenceSubscriptions key).getD []
    (st2, subscribers.map (fun sid => Emission.presenceUpdate sid key "online"))

/-- One step of the subscribe-handler cleanup loop: drop `sid` from the
reverse-index entry stored under the (raw) key `p`, pruning the entry when
it becomes empty.  Mirrors lines 210-217 of the source. -/
def removeSubscriber (sid : String) (rev : String → Option (List String)) (p : String) :
    String → Option (List String) :=
  match rev p with
  | none => rev
  | some l =>
    if l.filter (fun i => i ≠ sid) = [] then fupd rev p none
    else fupd rev p (some (l.filter (fun i => i ≠ sid)))

/-- One step of the subscribe-handler add loop: append `sid` to the
reverse-index entry under the normalized key of `p` (lines 222-228). -/
def addSubscriber (sid : String) (rev : String → Option (List String)) (p : String) :
    String → Option (List String) :=
  fupd rev (normKey p) (some ((rev (normKey p)).getD [] ++ [sid]))

/-- The `subscribe-to-presence` handler: clean up the socket's previous
subscriptions (iterating over the raw keys it stored), record the raw
requested list as the socket's forward watch-set, append the socket under
each normalized requested key, and reply with the currently-online subset. -/
def subscribeHandler (sock : Socket) (contactPubKeys : List String) (st : ServerState) :
    ServerState × List Emission :=
  let oldSubscriptions := (st.socketSubscriptions sock.id).getD []
  let rev1 := oldSubscriptions.foldl (removeSubscriber sock.id) st.presenceSubscriptions
  let rev2 := contactPubKeys.foldl (addSubscriber sock.id) rev1
  let st1 := { st with
    presenceSubscriptions := rev2,
    socketSubscriptions := fupd st.socketSubscriptions sock.id (some contactPubKeys) }
  let initialOnlineContacts :=
    contactPubKeys.filter (fun k => (st1.userSockets (normKey k)).isSome)
  (st1, [Emission.presenceInitialStatus sock.id initialOnlineContacts])

/-- The `subscribe-to-presence` handler on a possibly-malformed payload:
a null/undefined payload makes `contactPubKeys.length` on line 205 throw a
TypeError before any state is touched. -/
def subscribeHandlerRaw (sock : Socket) (payload : Option (List String)) (st : ServerState) :
    Except String (ServerState × List Emission) :=
  match payload with
  | none => Except.error "TypeError: cannot read length of null"
  | some ks => Except.ok (subscribeHandler sock ks st)

/-- Outcome of a failed `webpush.sendNotification` call. -/
structure PushErr where
  statusCode : Option Nat
deriving DecidableEq

/-- The `request-connection` handler: rate gate, then either deliver
`incoming-request` to the registered target, or consult the persistent
push store for `sub_<toKey>` and attempt a best-effort push whose failure
is only logged (purging the stored subscription on status 404/410).
Returns the new state, the emissions, and the store keys consulted for
the push bridge. -/
def requestConnectionHandler (sock : Socket) (now : Nat) (toId fromId : String)
    (pushResult : Except PushErr Unit) (st : ServerState) :
    ServerState × List Emission × List String :=
  let r := isRateLimited sock.addr now st.rateLimit
  let st1 := { st with rateLimit := r.2 }
  if r.1 then (st1, [], [])
  else
    let toKey := normKey toId
    let fromKey := normKey fromId
    match st1.userSockets toKey with
    | some targetSocketId =>
      (st1, [Emission.incomingRequest targetSocketId fromKey], [])
    | none =>
      let subKey := "sub_" ++ toKey
      match st1.pushStore subKey with
      | none => (st1, [], [subKey])
      | some _ =>
        match pushResult with
        | Except.ok _ => (st1, [], [subKey])
        | Except.error e =>
          if e.statusCode = some 404 ∨ e.statusCode = some 410 then
            ({ st1 with pushStore := fupd st1.pushStore subKey none }, [], [subKey])
          else
            (st1, [], [subKey])

/-- The `join` handler: `socket.join(room)`; socket.io room membership is
a set, so joining twice is a no-op. -/
def joinHandler (sock : Socket) (room : String) (st : ServerState) : ServerState :=
  if sock.id ∈ st.rooms room then st
  else { st with rooms := fupd st.rooms room (st.rooms room ++ [sock.id]) }

/-- The `signal` handler: `socket.to(room).emit("signal", \x7b room, payload \x7d)` —
forward the payload verbatim to every room member other than the sender. -/
def signalHandler (sock : Socket) (room : String) (payload : String) (st : ServerState) :
    ServerState × List Emission :=
  (st, ((st.rooms room).filter (fun i => i ≠ sock.id)).map
    (fun i => Emission.signalEv i room payload))

/-- The `disconnect` handler.  Everything is guarded by the truthiness
check `if (socket.data.pubKey)`: a socket that never registered — or whose
stored key is the (falsy) empty string, reachable via a whitespace-only
register — performs no cleanup at all.  Otherwise: offline fan-out (read
before cleanup), removal of the socket from the reverse index along its
stored raw watch-list, deletion of its forward entry, and deletion of its
registry entry. -/
def disconnectHandler (sock : Socket) (st : ServerState) : ServerState × List Emission :=
  match st.socketData sock.id with
  | none => (st, [])
  | some pubKey =>
    if pubKey = "" then (st, [])
    else
    let subscribers := (st.presenceSubscriptions pubKey).getD []
    let ems := subscribers.map (fun sid => Emission.presenceUpdate sid pubKey "offline")
    let rev1 :=
      ((st.socketSubscriptions sock.id).getD []).foldl (removeSubscriber sock.id)
        st.presenceSubscriptions
    let st1 := { st with
      presenceSubscriptions := rev1,
      socketSubscriptions := fupd st.socketSubscriptions sock.id none,
      userSockets := fupd st.userSockets pubKey none }
    (st1, ems)

/-- Registry lookup as performed at every use site: index `userSockets`
by the normalized identity. -/
def lookup (identity : String) (st : ServerState) : Option String :=
  st.userSockets (normKey identity)

/-- `S` appears in the reverse-index entry stored under key `k`. -/
def revHas (st : ServerState) (sid k : String) : Prop :=
  sid ∈ (st.presenceSubscriptions k).getD []

instance revHasDecidable (st : ServerState) (sid k : String) : Decidable (revHas st sid k) :=
  inferInstanceAs (Decidable (sid ∈ (st.presenceSubscriptions k).getD []))

/-- The forward watch-set the server recorded for socket `sid`. -/
def forwardSet (st : ServerState) (sid : String) : List String :=
  (st.socketSubscriptions sid).getD []

/-- A sequence of rate-limiter admissions for one address at given times:
the list of blocked flags and the final map. -/
def admitSeq (ip : String) (ts : List Nat) (rl : RLState) : List Bool × RLState :=
  match ts with
  | [] => ([], rl)
  | t :: rest =>
    let r := isRateLimited ip t rl
    let tail := admitSeq ip rest r.2
    (r.1 :: tail.1, tail.2)

/-- Formal reading of claim C1 about `subscribe-to-presence`: after
`subscribe(S, K)` (i) the reverse index mentions `S` under exactly the keys
of `S`'s recorded forward watch-set (transpose property), (ii) that
watch-set equals `normalize(K)` as a set, and (iii) a subsequent
`subscribe(S, K2)` leaves no residue of `normalize(K) \ normalize(K2)`. -/
def c1Statement (st : ServerState) (sock : Socket) (K : List String) : Prop :=
  (∀ k, revHas (subscribeHandler sock K st).1 sock.id k ↔
      k ∈ forwardSet (subscribeHandler sock K st).1 sock.id) ∧
  (∀ k, k ∈ forwardSet (subscribeHandler sock K st).1 sock.id ↔ k ∈ K.map normKey) ∧
  (∀ K2 k, k ∈ K.map normKey → k ∉ K2.map normKey →
      ¬ revHas (subscribeHandler sock K2 (subscribeHandler sock K st).1).1 sock.id k)

/-- Formal reading of claim C4's registry part: a `register` whose identity
is empty after normalization leaves the registry untouched. -/
def c4Statement : Prop :=
  ∀ (st : ServerState) (sock : Socket) (now : Nat) (identity : String),
    normKey identity = "" →
    (registerHandler sock now identity st).1.userSockets = st.userSockets

/-- Updating a dictionary at `k` and reading at `k` yields the new value. -/
theorem fupd_self {α : Type} (f : String → α) (k : String) (v : α) : fupd f k v k = v := by
  simp [fupd]

/-- Updating a dictionary at `k` does not change reads at other keys. -/
theorem fupd_ne {α : Type} (f : String → α) (k x : String) (v : α) (h : x ≠ k) :
    fupd f k v x = f x := by
  simp [fupd, h]

/-- The cleanup step for key `p` leaves every other reverse-index entry alone. -/
theorem removeSubscriber_at_other (sid : String) (rev : String → Option (List String))
    (p k : String) (hk : k ≠ p) : (removeSubscriber sid rev p) k = rev k := by
  unfold removeSubscriber
  cases rev p with
  | none => rfl
  | some l =>
    dsimp only
    split
    · exact fupd_ne _ _ _ _ hk
    · exact fupd_ne _ _ _ _ hk

/-- After the cleanup step for key `p`, the entry at `p` no longer holds `sid`. -/
theorem removeSubscriber_self_not_mem (sid : String) (rev : String → Option (List String))
    (p : String) : sid ∉ ((removeSubscriber sid rev p) p).getD [] := by
  unfold removeSubscriber
  cases hrev : rev p with
  | none =>
    dsimp only
    rw [hrev]
    simp
  | some l =>
    dsimp only
    split
    · rw [fupd_self]; simp
    · rw [fupd_self]
      simp [List.mem_filter]

/-- The cleanup step never adds `sid`, and removes it at the processed key. -/
theorem removeSubscriber_mem (sid : String) (rev : String → Option (List String)) (p k : String)
    (h : sid ∈ ((removeSubscriber sid rev p) k).getD []) :
    sid ∈ (rev k).getD [] ∧ k ≠ p := by
  by_cases hk : k = p
  · subst hk
    exact absurd h (removeSubscriber_self_not_mem sid rev k)
  · rw [removeSubscriber_at_other sid rev p k hk] at h
    exact ⟨h, hk⟩

/-- After folding the cleanup step over `old`, `sid` survives only under
keys that already held it and were not processed. -/
theorem foldl_remove_mem (sid : String) (old : List String)
    (rev : String → Option (List String)) (k : String)
    (h : sid ∈ ((old.foldl (removeSubscriber sid) rev) k).getD []) :
    sid ∈ (rev k).getD [] ∧ k ∉ old := by
  induction old generalizing rev with
  | nil => exact ⟨h, by simp⟩
  | cons p rest ih =>
    rw [List.foldl_cons] at h
    obtain ⟨h1, h2⟩ := ih _ h
    obtain ⟨h3, h4⟩ := removeSubscriber_mem sid rev p k h1
    exact ⟨h3, by simp [h2, h4]⟩

/-- If every key mentioning `sid` is in the processed list, the cleanup fold
removes `sid` from the whole reverse index. -/
theorem foldl_remove_clean (sid : String) (old : List String)
    (rev : String → Option (List String)) (k : String)
    (hInv : ∀ x, sid ∈ (rev x).getD [] → x ∈ old) :
    sid ∉ ((old.foldl (removeSubscriber sid) rev) k).getD [] := by
  intro h
  obtain ⟨h1, h2⟩ := foldl_remove_mem sid old rev k h
  exact h2 (hInv k h1)

/-- Membership after one add step: the normalized processed key gains `sid`,
all other keys are unchanged. -/
theorem addSubscriber_mem (sid : String) (rev : String → Option (List String)) (p k : String) :
    sid ∈ ((addSubscriber sid rev p) k).getD [] ↔ (k = normKey p ∨ sid ∈ (rev k).getD []) := by
  unfold addSubscriber
  by_cases hk : k = normKey p
  · subst hk
    rw [fupd_self]
    simp
  · rw [fupd_ne _ _ _ _ hk]
    simp [hk]

/-- Membership after folding the add step over a request list. -/
theorem foldl_add_mem (sid : String) (K : List String)
    (rev : String → Option (List String)) (k : String) :
    sid ∈ ((K.foldl (addSubscriber sid) rev) k).getD [] ↔
      (k ∈ K.map normKey ∨ sid ∈ (rev k).getD []) := by
  induction K generalizing rev with
  | nil => simp
  | cons p rest ih =>
    rw [List.foldl_cons, ih, addSubscriber_mem, List.map_cons, List.mem_cons]
    tauto

/-- After `subscribe(S, K)` from a state whose reverse index mentions `S`
only under keys of `S`'s recorded watch-set, the reverse index mentions `S`
exactly under the normalized keys of `K`. -/
theorem subscribe_revHas (st : ServerState) (sock : Socket) (K : List String) (k : String)
    (hInv : ∀ x, revHas st sock.id x → x ∈ forwardSet st sock.id) :
    (revHas (subscribeHandler sock K st).1 sock.id k ↔ k ∈ K.map normKey) := by
  unfold revHas subscribeHandler
  dsimp only
  rw [foldl_add_mem]
  constructor
  · rintro (h | h)
    · exact h
    · exact absurd h (foldl_remove_clean sock.id _ _ k hInv)
  · exact Or.inl

/-- `subscribe(S, K)` records the raw request list as `S`'s watch-set. -/
theorem subscribe_forwardSet (st : ServerState) (sock : Socket) (K : List String) :
    forwardSet (subscribeHandler sock K st).1 sock.id = K := by
  unfold forwardSet subscribeHandler
  dsimp only
  rw [fupd_self]
  rfl

/-- Mapping `normKey` over a list of already-normalized keys is the identity. -/
theorem map_normKey_clean (K : List String) (hK : ∀ x ∈ K, normKey x = x) :
    K.map normKey = K := by
  induction K with
  | nil => rfl
  | cons p rest ih =>
    rw [List.map_cons, hK p (by simp), ih (fun x hx => hK x (by simp [hx]))]

/-- An admitted, non-empty `register` stores the normalized key in the
registry and on the socket, leaves the subscription indices alone, and fans
out online presence updates to the key's current subscribers. -/
theorem registerHandler_ok (sock : Socket) (now : Nat) (pubKey : String) (st : ServerState)
    (hrl : (isRateLimited sock.addr now st.rateLimit).1 = false) (hp : pubKey ≠ "") :
    (registerHandler sock now pubKey st).1.userSockets
        = fupd st.userSockets (normKey pubKey) (some sock.id) ∧
    (registerHandler sock now pubKey st).1.socketData
        = fupd st.socketData sock.id (some (normKey pubKey)) ∧
    (registerHandler sock now pubKey st).1.presenceSubscriptions = st.presenceSubscriptions ∧
    (registerHandler sock now pubKey st).1.socketSubscriptions = st.socketSubscriptions ∧
    (registerHandler sock now pubKey st).2
        = ((st.presenceSubscriptions (normKey pubKey)).getD []).map
            (fun sid => Emission.presenceUpdate sid (normKey pubKey) "online") := by
  unfold registerHandler
  simp [hrl, hp]

/-- First request from an address is admitted and opens a window. -/
theorem isRateLimited_first (ip : String) (now : Nat) (rl : RLState) (hr : rl ip = none) :
    (isRateLimited ip now rl).1 = false ∧ (isRateLimited ip now rl).2 ip = some (1, now) := by
  unfold isRateLimited
  rw [hr]
  exact ⟨rfl, fupd_self _ _ _⟩

/-- A request inside the window below the ceiling is admitted and counted. -/
theorem isRateLimited_step (ip : String) (now : Nat) (rl : RLState) (c t0 : Nat)
    (hr : rl ip = some (c, t0)) (hw : now - t0 ≤ TIME_FRAME) (hc : c < LIMIT) :
    (isRateLimited ip now rl).1 = false ∧
    (isRateLimited ip now rl).2 ip = some (c + 1, t0) := by
  unfold isRateLimited
  rw [hr]
  dsimp only
  rw [if_neg (by omega), if_neg (by omega)]
  exact ⟨rfl, fupd_self _ _ _⟩

/-- A request inside the window at or above the ceiling is blocked and the
record is unchanged. -/
theorem isRateLimited_blocked (ip : String) (now : Nat) (rl : RLState) (c t0 : Nat)
    (hr : rl ip = some (c, t0)) (hw : now - t0 ≤ TIME_FRAME) (hc : c ≥ LIMIT) :
    (isRateLimited ip now rl).1 = true ∧ (isRateLimited ip now rl).2 = rl := by
  unfold isRateLimited
  rw [hr]
  dsimp only
  rw [if_neg (by omega), if_pos hc]
  exact ⟨rfl, rfl⟩

/-- Once the window has elapsed, the next request is admitted with a fresh
window and count 1 (lazy reset). -/
theorem isRateLimited_reset (ip : String) (now : Nat) (rl : RLState) (c t0 : Nat)
    (hr : rl ip = some (c, t0)) (hw : now - t0 > TIME_FRAME) :
    (isRateLimited ip now rl).1 = false ∧
    (isRateLimited ip now rl).2 ip = some (1, now) := by
  unfold isRateLimited
  rw [hr]
  dsimp only
  rw [if_pos hw]
  exact ⟨rfl, fupd_self _ _ _⟩

/-- Within a window the stored count never decreases. -/
theorem isRateLimited_monotone (ip : String) (now : Nat) (rl : RLState) (c t0 : Nat)
    (hr : rl ip = some (c, t0)) (hw : now - t0 ≤ TIME_FRAME) :
    ∃ c2, (isRateLimited ip now rl).2 ip = some (c2, t0) ∧ c ≤ c2 := by
  by_cases hc : c ≥ LIMIT
  · exact ⟨c, by rw [(isRateLimited_blocked ip now rl c t0 hr hw hc).2, hr], le_refl c⟩
  · exact ⟨c + 1, (isRateLimited_step ip now rl c t0 hr hw (by omega)).2, by omega⟩

/-- A run of in-window requests below the ceiling is admitted throughout and
counted exactly. -/
theorem admitSeq_within (ip : String) (ts : List Nat) (rl : RLState) (c t0 : Nat)
    (hr : rl ip = some (c, t0)) (hts : ∀ t ∈ ts, t - t0 ≤ TIME_FRAME)
    (hc : c + ts.length ≤ LIMIT) :
    (admitSeq ip ts rl).1 = List.replicate ts.length false ∧
    (admitSeq ip ts rl).2 ip = some (c + ts.length, t0) := by
  induction ts generalizing rl c with
  | nil => simpa [admitSeq] using hr
  | cons t rest ih =>
    have hstep := isRateLimited_step ip t rl c t0 hr (hts t (by simp))
      (by simp only [List.length_cons] at hc; omega)
    have hrest := ih (isRateLimited ip t rl).2 (c + 1) hstep.2
      (fun x hx => hts x (by simp [hx]))
      (by simp only [List.length_cons] at hc; omega)
    unfold admitSeq
    dsimp only
    rw [List.length_cons, List.replicate_succ]
    refine ⟨?_, ?_⟩
    · rw [hstep.1, hrest.1]
    · rw [hrest.2, show c + 1 + rest.length = c + (rest.length + 1) from by omega]

/-- Claim C1, amended.  The claim as stated (`c1Statement`) holds provided
every identity in `K` is already whitespace-free and the starting state
mentions `sock` in the reverse index only under keys of its recorded
forward watch-set (true of the initial state and preserved by
whitespace-free subscriptions).  Without the whitespace proviso the claim
fails (`c1_subscribe_transpose_cex`): the forward watch-set keeps the raw
strings while the reverse index is keyed by normalized strings, and the
cleanup loop looks the raw keys up in the normalized-keyed index. -/
theorem c1_subscribe_transpose (st : ServerState) (sock : Socket) (K : List String)
    (hK : ∀ x ∈ K, normKey x = x)
    (hInv : ∀ x, revHas st sock.id x → x ∈ forwardSet st sock.id) :
    c1Statement st sock K := by
  have hmap := map_normKey_clean K hK
  have hfwd := subscribe_forwardSet st sock K
  refine ⟨?_, ?_, ?_⟩
  · intro k
    rw [subscribe_revHas st sock K k hInv, hfwd, hmap]
  · intro k
    rw [hfwd, hmap]
  · intro K2 k hk hk2 hrev
    have hInv1 : ∀ x, revHas (subscribeHandler sock K st).1 sock.id x →
        x ∈ forwardSet (subscribeHandler sock K st).1 sock.id := by
      intro x hx
      rw [hfwd, ← hmap]
      exact (subscribe_revHas st sock K x hInv).mp hx
    exact hk2 ((subscribe_revHas _ sock K2 k hInv1).mp hrev)

/-- Claim C1, counterexample to the claim as stated: subscribing to the
single identity `"a b"` (whitespace inside) from the fresh state records
forward watch-set `["a b"]` but reverse-index key `"ab"`, so the forward
set does not equal `normalize(K)` and the transpose property fails. -/
theorem c1_subscribe_transpose_cex : ¬ c1Statement initialState ⟨"s", "a1"⟩ ["a b"] := by
  intro h
  have h2 := (h.2.1 "a b").mp (by decide)
  exact absurd h2 (by decide)

/-- Claim C1, witness: the amended theorem applied to the fresh state and
the whitespace-free request `["x"]`. -/
theorem c1_subscribe_transpose_witness : c1Statement initialState ⟨"s", "a1"⟩ ["x"] :=
  c1_subscribe_transpose initialState ⟨"s", "a1"⟩ ["x"] (by decide)
    (by intro x hx; simp [revHas, initialState] at hx)

/-- Claim C2, evaluation at the failing input: socket `"s"` subscribes to
`["a"]` without ever registering, then disconnects.  Because the whole
disconnect cleanup is guarded by `if (socket.data.pubKey)`, the reverse
index still references `"s"`, its forward watch-set entry survives, and no
offline fan-out happens — contradicting the claim that teardown unwinds
the subscription state regardless of which subset of register/subscribe
the connection performed. -/
theorem c2_teardown_residue_eval :
    revHas (disconnectHandler ⟨"s", "a1"⟩
        (subscribeHandler ⟨"s", "a1"⟩ ["a"] initialState).1).1 "s" "a" ∧
    (disconnectHandler ⟨"s", "a1"⟩
        (subscribeHandler ⟨"s", "a1"⟩ ["a"] initialState).1).1.socketSubscriptions "s"
      = some ["a"] ∧
    (disconnectHandler ⟨"s", "a1"⟩
        (subscribeHandler ⟨"s", "a1"⟩ ["a"] initialState).1).2 = [] :=
  ⟨by decide, by decide, by decide⟩

/-- Claim C3: after an admitted `register(I, C)` with non-empty `I`,
`lookup(I)` resolves to `C`, and after a later admitted `register(I, C2)`
it resolves to `C2` — supersession, not rejection. -/
theorem c3_register_supersedes (st : ServerState) (sock1 sock2 : Socket) (t1 t2 : Nat)
    (identity : String) (hI : identity ≠ "")
    (h1 : (isRateLimited sock1.addr t1 st.rateLimit).1 = false)
    (h2 : (isRateLimited sock2.addr t2
        ((registerHandler sock1 t1 identity st).1).rateLimit).1 = false) :
    lookup identity (registerHandler sock1 t1 identity st).1 = some sock1.id ∧
    lookup identity (registerHandler sock2 t2 identity
        (registerHandler sock1 t1 identity st).1).1 = some sock2.id := by
  obtain ⟨hu1, -, -, -, -⟩ := registerHandler_ok sock1 t1 identity st h1 hI
  obtain ⟨hu2, -, -, -, -⟩ := registerHandler_ok sock2 t2 identity _ h2 hI
  constructor
  · rw [lookup, hu1, fupd_self]
  · rw [lookup, hu2, fupd_self]

/-- Claim C3, witness: two concrete registrations of `"pk"` from the fresh
state. -/
theorem c3_register_supersedes_witness :
    lookup "pk" (registerHandler ⟨"s1", "a1"⟩ 0 "pk" initialState).1 = some "s1" ∧
    lookup "pk" (registerHandler ⟨"s2", "a2"⟩ 0 "pk"
        (registerHandler ⟨"s1", "a1"⟩ 0 "pk" initialState).1).1 = some "s2" :=
  c3_register_supersedes initialState ⟨"s1", "a1"⟩ ⟨"s2", "a2"⟩ 0 0 "pk"
    (by decide) (by decide) (by decide)

/-- Claim C4, counterexample to the claim as stated: the emptiness check of
`register` is `if (!pubKey)` on the raw payload, before normalization, so
the whitespace-only identity `" "` — empty after normalization — does
create a registry entry, under the empty canonical key. -/
theorem c4_validation_cex : ¬ c4Statement := by
  intro h
  have h2 := congrFun (h initialState ⟨"s1", "a1"⟩ 0 " " (by decide)) ""
  revert h2
  decide

/-- Claim C4, amended.  A `register` with a missing (falsy/empty) raw
identity is a silent no-op on all three indices with no event emitted; but
the emptiness check precedes normalization, so a whitespace-only identity
creates a registry entry under the empty canonical key; and a null
`subscribe-to-presence` payload is not ignored: it raises a TypeError
(before any index mutation) instead of being silently dropped. -/
theorem c4_validation_amended (st : ServerState) (sock : Socket) (now : Nat)
    (hfresh : (isRateLimited sock.addr now st.rateLimit).1 = false) :
    ((registerHandler sock now "" st).1.userSockets = st.userSockets ∧
     (registerHandler sock now "" st).1.presenceSubscriptions = st.presenceSubscriptions ∧
     (registerHandler sock now "" st).1.socketSubscriptions = st.socketSubscriptions ∧
     (registerHandler sock now "" st).2 = []) ∧
    (registerHandler sock now " " st).1.userSockets "" = some sock.id ∧
    (∀ (st2 : ServerState) (sock2 : Socket),
        subscribeHandlerRaw sock2 none st2
          = Except.error "TypeError: cannot read length of null") := by
  refine ⟨?_, ?_, ?_⟩
  · unfold registerHandler
    dsimp only
    split
    · exact ⟨rfl, rfl, rfl, rfl⟩
    · rw [if_pos rfl]
      exact ⟨rfl, rfl, rfl, rfl⟩
  · obtain ⟨hu, -, -, -, -⟩ := registerHandler_ok sock now " " st hfresh (by decide)
    rw [congrFun hu ""]
    rw [show normKey " " = "" from by decide]
    exact fupd_self _ _ _
  · intro st2 sock2
    rfl

/-- Claim C4, witness: the amended theorem at the fresh state. -/
theorem c4_validation_amended_witness :
    ((registerHandler ⟨"s1", "a1"⟩ 0 "" initialState).1.userSockets
        = initialState.userSockets ∧
     (registerHandler ⟨"s1", "a1"⟩ 0 "" initialState).1.presenceSubscriptions
        = initialState.presenceSubscriptions ∧
     (registerHandler ⟨"s1", "a1"⟩ 0 "" initialState).1.socketSubscriptions
        = initialState.socketSubscriptions ∧
     (registerHandler ⟨"s1", "a1"⟩ 0 "" initialState).2 = []) ∧
    (registerHandler ⟨"s1", "a1"⟩ 0 " " initialState).1.userSockets "" = some "s1" ∧
    (∀ (st2 : ServerState) (sock2 : Socket),
        subscribeHandlerRaw sock2 none st2
          = Except.error "TypeError: cannot read length of null") :=
  c4_validation_amended initialState ⟨"s1", "a1"⟩ 0 (by decide)

/-- Claim C5: from a fresh window for an address, the opening request and
19 further in-window requests are all admitted (20 total), a 21st
in-window request is blocked, and a request once the window has elapsed
(for example at window + 1 ms) is admitted with the count reset to 1; and
within a window the stored count is monotonically non-decreasing. -/
theorem c5_rate_limiter (ip : String) (t0 : Nat) (ts : List Nat) (t21 treset : Nat)
    (rl0 : RLState) (h0 : rl0 ip = none) (hts : ∀ t ∈ ts, t - t0 ≤ TIME_FRAME)
    (hlen : ts.length = 19) (h21 : t21 - t0 ≤ TIME_FRAME)
    (hreset : treset - t0 > TIME_FRAME) :
    (isRateLimited ip t0 rl0).1 = false ∧
    (admitSeq ip ts (isRateLimited ip t0 rl0).2).1 = List.replicate 19 false ∧
    (isRateLimited ip t21 (admitSeq ip ts (isRateLimited ip t0 rl0).2).2).1 = true ∧
    (isRateLimited ip treset (admitSeq ip ts (isRateLimited ip t0 rl0).2).2).1 = false ∧
    (isRateLimited ip treset (admitSeq ip ts (isRateLimited ip t0 rl0).2).2).2 ip
        = some (1, treset) ∧
    (∀ (rl : RLState) (c s now : Nat), rl ip = some (c, s) → now - s ≤ TIME_FRAME →
        ∃ c2, (isRateLimited ip now rl).2 ip = some (c2, s) ∧ c ≤ c2) := by
  have hfirst := isRateLimited_first ip t0 rl0 h0
  have hseq := admitSeq_within ip ts (isRateLimited ip t0 rl0).2 1 t0 hfirst.2 hts
    (by rw [hlen]; decide)
  have h20 : (admitSeq ip ts (isRateLimited ip t0 rl0).2).2 ip = some (20, t0) := by
    rw [hseq.2, hlen]
  refine ⟨hfirst.1, by rw [hseq.1, hlen], ?_, ?_, ?_, ?_⟩
  · exact (isRateLimited_blocked ip t21 _ 20 t0 h20 h21 (by decide)).1
  · exact (isRateLimited_reset ip treset _ 20 t0 h20 hreset).1
  · exact (isRateLimited_reset ip treset _ 20 t0 h20 hreset).2
  · intro rl c s now hr hw
    exact isRateLimited_monotone ip now rl c s hr hw

/-- Claim C5, witness: 20 requests at time 0, a blocked 21st at time 0, and
an admitted reset request at 60001 ms. -/
theorem c5_rate_limiter_witness :
    (isRateLimited "a" 0 (fun _ => none)).1 = false ∧
    (admitSeq "a" (List.replicate 19 0) (isRateLimited "a" 0 (fun _ => none)).2).1
        = List.replicate 19 false ∧
    (isRateLimited "a" 0
        (admitSeq "a" (List.replicate 19 0) (isRateLimited "a" 0 (fun _ => none)).2).2).1
        = true ∧
    (isRateLimited "a" 60001
        (admitSeq "a" (List.replicate 19 0) (isRateLimited "a" 0 (fun _ => none)).2).2).1
        = false ∧
    (isRateLimited "a" 60001
        (admitSeq "a" (List.replicate 19 0) (isRateLimited "a" 0 (fun _ => none)).2).2).2 "a"
        = some (1, 60001) ∧
    (∀ (rl : RLState) (c s now : Nat), rl "a" = some (c, s) → now - s ≤ TIME_FRAME →
        ∃ c2, (isRateLimited "a" now rl).2 "a" = some (c2, s) ∧ c ≤ c2) :=
  c5_rate_limiter "a" 0 (List.replicate 19 0) 0 60001 (fun _ => none)
    rfl (by decide) (by decide) (by decide) (by decide)

/-- Claim C6: with `B` (socket `"sb"`) subscribed to `"pk_a"`, `A`'s
registration of `"pk_a"` pushes to `B` exactly one `presence-update` whose
payload pairs the identity `"pk_a"` (the code's `pubKey` field, which the
specification calls `identity`) with status `"online"`; `A`'s disconnect
pushes to `B` exactly one `presence-update` pairing `"pk_a"` with
`"offline"`, with no further duplicate. -/
theorem c6_presence_payload :
    (registerHandler ⟨"sa", "ipa"⟩ 0 "pk_a"
        (subscribeHandler ⟨"sb", "ipb"⟩ ["pk_a"] initialState).1).2
      = [Emission.presenceUpdate "sb" "pk_a" "online"] ∧
    (disconnectHandler ⟨"sa", "ipa"⟩
        (registerHandler ⟨"sa", "ipa"⟩ 0 "pk_a"
          (subscribeHandler ⟨"sb", "ipb"⟩ ["pk_a"] initialState).1).1).2
      = [Emission.presenceUpdate "sb" "pk_a" "offline"] :=
  ⟨by decide, by decide⟩

/-- Claim C7: `subscribe(S, K)` replies to `S` with exactly one
`presence-initial-status` carrying exactly those requested identities whose
normalized key is registered at that moment; in particular, after `A`
registers `"pk_a"`, `B`'s subscription to `["pk_a"]` is answered with
`["pk_a"]`. -/
theorem c7_initial_status :
    (∀ (st : ServerState) (sock : Socket) (K : List String),
      ∃ L, (subscribeHandler sock K st).2 = [Emission.presenceInitialStatus sock.id L] ∧
        ∀ k, k ∈ L ↔ (k ∈ K ∧ (st.userSockets (normKey k)).isSome = true)) ∧
    (subscribeHandler ⟨"sb", "ipb"⟩ ["pk_a"]
        (registerHandler ⟨"sa", "ipa"⟩ 0 "pk_a" initialState).1).2
      = [Emission.presenceInitialStatus "sb" ["pk_a"]] := by
  constructor
  · intro st sock K
    refine ⟨_, rfl, ?_⟩
    intro k
    simp [subscribeHandler, List.mem_filter]
  · decide

/-- Claim C8: an admitted `request-connection` delivers
`incoming-request` with the normalized sender identity to the target's
socket when the target is registered (consulting no push bridge); when the
target is not registered, nothing is delivered, the push store is
consulted for `sub_<toKey>`, a push failure with status 404/410 purges the
stored subscription, and in every case no event of any kind goes back to
the sender (the emission list is exactly the delivery or empty). -/
theorem c8_request_connection (st : ServerState) (sock : Socket) (now : Nat)
    (toId fromId : String) (pres : Except PushErr Unit)
    (hrl : (isRateLimited sock.addr now st.rateLimit).1 = false) :
    (∀ tid, st.userSockets (normKey toId) = some tid →
        (requestConnectionHandler sock now toId fromId pres st).2.1
            = [Emission.incomingRequest tid (normKey fromId)] ∧
        (requestConnectionHandler sock now toId fromId pres st).2.2 = [] ∧
        (requestConnectionHandler sock now toId fromId pres st).1.pushStore
            = st.pushStore) ∧
    (st.userSockets (normKey toId) = none →
        (requestConnectionHandler sock now toId fromId pres st).2.1 = [] ∧
        (requestConnectionHandler sock now toId fromId pres st).2.2
            = ["sub_" ++ normKey toId] ∧
        (requestConnectionHandler sock now toId fromId pres st).1.userSockets
            = st.userSockets ∧
        (∀ e, pres = Except.error e →
            (e.statusCode = some 404 ∨ e.statusCode = some 410) →
            st.pushStore ("sub_" ++ normKey toId) ≠ none →
            (requestConnectionHandler sock now toId fromId pres st).1.pushStore
              ("sub_" ++ normKey toId) = none)) := by
  constructor
  · intro tid htid
    unfold requestConnectionHandler
    dsimp only
    rw [if_neg (by rw [hrl]; simp), htid]
    exact ⟨rfl, rfl, rfl⟩
  · intro hnone
    unfold requestConnectionHandler
    dsimp only
    rw [if_neg (by rw [hrl]; simp), hnone]
    dsimp only
    cases hsub : st.pushStore ("sub_" ++ normKey toId) with
    | none =>
      dsimp only
      exact ⟨rfl, rfl, rfl, fun e hpres hcode hne => absurd rfl hne⟩
    | some v =>
      dsimp only
      cases pres with
      | ok u => exact ⟨rfl, rfl, rfl, fun e hpres hcode hne => by cases hpres⟩
      | error e =>
        dsimp only
        by_cases hcode : e.statusCode = some 404 ∨ e.statusCode = some 410
        · rw [if_pos hcode]
          exact ⟨rfl, rfl, rfl, fun e2 hpres hcode2 hne => by
            dsimp only
            exact fupd_self _ _ _⟩
        · rw [if_neg hcode]
          refine ⟨rfl, rfl, rfl, fun e2 hpres hcode2 hne => ?_⟩
          cases hpres
          exact absurd hcode2 hcode

/-- Claim C8, witness: `"pk_b"` registered by socket `"sb"`, then a
request from socket `"sa"`. -/
theorem c8_request_connection_witness :
    (∀ tid,
        ((registerHandler ⟨"sb", "ab"⟩ 0 "pk_b" initialState).1).userSockets (normKey "pk_b")
            = some tid →
        (requestConnectionHandler ⟨"sa", "aa"⟩ 0 "pk_b" "pk_a" (Except.ok ())
            (registerHandler ⟨"sb", "ab"⟩ 0 "pk_b" initialState).1).2.1
            = [Emission.incomingRequest tid (normKey "pk_a")] ∧
        (requestConnectionHandler ⟨"sa", "aa"⟩ 0 "pk_b" "pk_a" (Except.ok ())
            (registerHandler ⟨"sb", "ab"⟩ 0 "pk_b" initialState).1).2.2 = [] ∧
        (requestConnectionHandler ⟨"sa", "aa"⟩ 0 "pk_b" "pk_a" (Except.ok ())
            (registerHandler ⟨"sb", "ab"⟩ 0 "pk_b" initialState).1).1.pushStore
            = ((registerHandler ⟨"sb", "ab"⟩ 0 "pk_b" initialState).1).pushStore) ∧
    (((registerHandler ⟨"sb", "ab"⟩ 0 "pk_b" initialState).1).userSockets (normKey "pk_b")
        = none →
        (requestConnectionHandler ⟨"sa", "aa"⟩ 0 "pk_b" "pk_a" (Except.ok ())
            (registerHandler ⟨"sb", "ab"⟩ 0 "pk_b" initialState).1).2.1 = [] ∧
        (requestConnectionHandler ⟨"sa", "aa"⟩ 0 "pk_b" "pk_a" (Except.ok ())
            (registerHandler ⟨"sb", "ab"⟩ 0 "pk_b" initialState).1).2.2
            = ["sub_" ++ normKey "pk_b"] ∧
        (requestConnectionHandler ⟨"sa", "aa"⟩ 0 "pk_b" "pk_a" (Except.ok ())
            (registerHandler ⟨"sb", "ab"⟩ 0 "pk_b" initialState).1).1.userSockets
            = ((registerHandler ⟨"sb", "ab"⟩ 0 "pk_b" initialState).1).userSockets ∧
        (∀ e, (Except.ok () : Except PushErr Unit) = Except.error e →
            (e.statusCode = some 404 ∨ e.statusCode = some 410) →
            ((registerHandler ⟨"sb", "ab"⟩ 0 "pk_b" initialState).1).pushStore
              ("sub_" ++ normKey "pk_b") ≠ none →
            (requestConnectionHandler ⟨"sa", "aa"⟩ 0 "pk_b" "pk_a" (Except.ok ())
                (registerHandler ⟨"sb", "ab"⟩ 0 "pk_b" initialState).1).1.pushStore
              ("sub_" ++ normKey "pk_b") = none)) :=
  c8_request_connection (registerHandler ⟨"sb", "ab"⟩ 0 "pk_b" initialState).1
    ⟨"sa", "aa"⟩ 0 "pk_b" "pk_a" (Except.ok ()) (by decide)

/-- Claim C9: a `signal` for room `R` delivers `signal(R, payload)` with the
payload verbatim to exactly the members of `R` other than the sender, is a
no-op when no other member exists, and in the concrete two-member scenario
the other member (and only it) receives the event. -/
theorem c9_signal_broadcast :
    (∀ (st : ServerState) (sock : Socket) (room payload : String),
      (∀ sid, Emission.signalEv sid room payload ∈ (signalHandler sock room payload st).2 ↔
          (sid ∈ st.rooms room ∧ sid ≠ sock.id)) ∧
      ((st.rooms room).filter (fun i => i ≠ sock.id) = [] →
          (signalHandler sock room payload st).2 = [])) ∧
    (signalHandler ⟨"s1", "a1"⟩ "room1" "P"
        (joinHandler ⟨"s2", "a2"⟩ "room1"
          (joinHandler ⟨"s1", "a1"⟩ "room1" initialState))).2
      = [Emission.signalEv "s2" "room1" "P"] := by
  constructor
  · intro st sock room payload
    constructor
    · intro sid
      simp [signalHandler, List.mem_filter, List.mem_map]
    · intro hfil
      unfold signalHandler
      dsimp only
      rw [hfil]
      rfl
  · decide

/-- Claim C10: when `C` registers `I` (with `I` non-empty after
normalization, so the stored `socket.data.pubKey` is truthy), then `C2`
registers `I` (superseding `C`, so `lookup I` resolves to `C2`), a later
disconnect of `C` still deletes the registry entry for `I`
unconditionally — `lookup I` becomes absent although `C2` never
disconnected; the teardown performs no check that the disconnecting socket
is still the one registered for its held identity. -/
theorem c10_disconnect_unconditional (st : ServerState) (sockC sockC2 : Socket)
    (t1 t2 : Nat) (identity : String) (hI : normKey identity ≠ "")
    (h1 : (isRateLimited sockC.addr t1 st.rateLimit).1 = false)
    (h2 : (isRateLimited sockC2.addr t2
        ((registerHandler sockC t1 identity st).1).rateLimit).1 = false) :
    lookup identity (registerHandler sockC2 t2 identity
        (registerHandler sockC t1 identity st).1).1 = some sockC2.id ∧
    lookup identity (disconnectHandler sockC
        (registerHandler sockC2 t2 identity
          (registerHandler sockC t1 identity st).1).1).1 = none := by
  have hraw : identity ≠ "" := by
    intro h
    rw [h] at hI
    exact hI rfl
  obtain ⟨hu1, hd1, -, -, -⟩ := registerHandler_ok sockC t1 identity st h1 hraw
  obtain ⟨hu2, hd2, -, -, -⟩ := registerHandler_ok sockC2 t2 identity _ h2 hraw
  refine ⟨by rw [lookup, hu2, fupd_self], ?_⟩
  have hdata : (registerHandler sockC2 t2 identity
      (registerHandler sockC t1 identity st).1).1.socketData sockC.id
      = some (normKey identity) := by
    rw [congrFun hd2 sockC.id]
    unfold fupd
    split
    · rfl
    · rw [congrFun hd1 sockC.id, fupd_self]
  unfold lookup disconnectHandler
  rw [hdata]
  dsimp only
  rw [if_neg hI]
  exact fupd_self _ _ _

/-- Claim C10, witness: sockets `"s1"` and `"s2"` both register `"pk"`,
then `"s1"` disconnects and `"pk"` resolves to nothing. -/
theorem c10_disconnect_unconditional_witness :
    lookup "pk" (registerHandler ⟨"s2", "a2"⟩ 0 "pk"
        (registerHandler ⟨"s1", "a1"⟩ 0 "pk" initialState).1).1 = some "s2" ∧
    lookup "pk" (disconnectHandler ⟨"s1", "a1"⟩
        (registerHandler ⟨"s2", "a2"⟩ 0 "pk"
          (registerHandler ⟨"s1", "a1"⟩ 0 "pk" initialState).1).1).1 = none :=
  c10_disconnect_unconditional initialState ⟨"s1", "a1"⟩ ⟨"s2", "a2"⟩ 0 0 "pk"
    (by decide) (by decide) (by decide)
